import Mathlib

/-!
Shallow embedding of `src/src/ofxImageSequence.h` (template class
`ofxImageSequence<T>` plus its worker `ImageSequenceLoader<T>`).

Modelling conventions:
* Pixel buffers (`ofPixels` / `ofShortPixels` / `ofFloatPixels`) are `Pix`:
  an allocation flag plus integer dimensions.  A default-constructed buffer
  is unallocated with width/height 0, matching `ofPixels`.
* The external collaborators (image decoder `ofLoadImage`, filesystem
  `ofFile::exists`, directory listing `ofDirectory::listDir` with the
  extension filter installed by `allowExt`) are an environment `Env` of
  pure functions.  An empty extension string means "no filter", as in the
  source where `allowExt` is only called when `extension != ""`.
* `ofLogError` is modelled as appending a message to a ghost `errorLog`
  field; each call of the decode collaborator bumps a ghost `decodeCalls`
  counter.  Ghost fields change no control flow.
* C++ `int` is `Int`, `size_t` comparisons are made on `Int` after the
  implicit conversions the source performs; machine overflow is irrelevant
  at the sizes involved in every claim.
* `float` quantities (percentages, frame rate) are `ℚ`; the only float
  operations the translated code performs are comparison, subtraction,
  `floor`, multiplication, division and an `(int)` cast (truncation toward
  zero), all exact on `ℚ`.
-/

/-- A pixel buffer: `ofPixels_`-like object.  Default constructed ⇒
unallocated, `getWidth() = 0`. -/
structure Pix where
  allocated : Bool
  w : Nat
  h : Nat
deriving DecidableEq, Repr

/-- A default-constructed (never decoded-into) pixel buffer. -/
def Pix.empty : Pix := ⟨false, 0, 0⟩

/-- `ofPixels_::isAllocated`. -/
def Pix.isAllocated (p : Pix) : Bool := p.allocated

/-- `ofPixels_::getWidth` (0 while unallocated). -/
def Pix.getWidth (p : Pix) : Nat := p.w

/-- `ofPixels_::getHeight` (0 while unallocated). -/
def Pix.getHeight (p : Pix) : Nat := p.h

/-- The closed set of pixel element types the class accepts
(`ofPixels`, `ofShortPixels`, `ofFloatPixels`). -/
inductive PixelTypeT where
  | ofPixels
  | ofShortPixels
  | ofFloatPixels
deriving DecidableEq, Repr

/-- `typeid(T).name()` for a pixel type `T`. -/
def pixelTypeName : PixelTypeT → String
  | .ofPixels => "ofPixels"
  | .ofShortPixels => "ofShortPixels"
  | .ofFloatPixels => "ofFloatPixels"

/-- `typeid(*this).name()` inside `ofxImageSequence<T>`: the dynamic type
of `*this` is the class itself, never a pixel type. -/
def classTypeName (t : PixelTypeT) : String :=
  "ofxImageSequence<" ++ pixelTypeName t ++ ">"

/-- The chained comparison the two load loops perform against the three
accepted pixel-type names. -/
def pixelTypeOk (checked : String) : Bool :=
  checked == pixelTypeName PixelTypeT.ofPixels
    || checked == pixelTypeName PixelTypeT.ofShortPixels
    || checked == pixelTypeName PixelTypeT.ofFloatPixels

/-- External collaborators: decoder, file existence, directory listing
(second argument is the extension filter, `""` = no filter). `decode`
returns the decoded dimensions on success. -/
structure Env where
  decode : String → Option (Nat × Nat)
  fileExists : String → Bool
  listDir : String → String → List String

/-- `ImageSequenceLoader<T>`'s observable state. -/
structure Loader where
  loading : Bool
  cancelLoading : Bool
deriving DecidableEq, Repr

/-- The fields of `ofxImageSequence<T>` (plus ghost instrumentation:
`decodeCalls` counts decoder invocations, `errorLog` records
`ofLogError` calls). -/
structure SeqState where
  threadLoader : Option Loader
  sequence : List Pix
  filenames : List String
  loadFailed : List Bool
  currentFrame : Int
  texture : Option Pix
  extension : String
  folderToLoad : String
  curLoadFrame : Nat
  maxFrames : Nat
  useThread : Bool
  loaded : Bool
  width : Nat
  height : Nat
  lastFrameLoaded : Int
  frameRate : ℚ
  pixelT : PixelTypeT
  decodeCalls : Nat
  errorLog : List String
deriving DecidableEq, Repr

/-- `ofLogError(...) << msg`: ghost-append to the error log. -/
def ofLogError (msg : String) (s : SeqState) : SeqState :=
  { s with errorLog := s.errorLog ++ [msg] }

/-- The constructor `ofxImageSequence<T>::ofxImageSequence()`. -/
def initSequenceState (t : PixelTypeT) : SeqState :=
  { threadLoader := none
    sequence := []
    filenames := []
    loadFailed := []
    currentFrame := 0
    texture := none
    extension := ""
    folderToLoad := ""
    curLoadFrame := 0
    maxFrames := 0
    useThread := false
    loaded := false
    width := 0
    height := 0
    lastFrameLoaded := -1
    frameRate := 30
    pixelT := t
    decodeCalls := 0
    errorLog := [] }

/-- `ofLoadImage(sequence[i], path)` result: the decoded buffer, if the
decoder succeeds on `path`. -/
def ofLoadImage (env : Env) (path : String) : Option Pix :=
  (env.decode path).map (fun d => ⟨true, d.1, d.2⟩)

/-- `ofxImageSequence<T>::getTotalFrames()` (`sequence.size()` as `int`). -/
def getTotalFrames (s : SeqState) : Int := s.sequence.length

/-- `ofxImageSequence<T>::isLoaded()`. -/
def isLoaded (s : SeqState) : Bool := s.loaded

/-- `ofxImageSequence<T>::isLoading()`:
`threadLoader != NULL && threadLoader->loading`. -/
def isLoading (s : SeqState) : Bool :=
  match s.threadLoader with
  | some l => l.loading
  | none => false

/-- The statement `if (!ofLoadImage(sequence[i], filenames[i])) {
loadFailed[i] = true; ofLogError(...); }` shared by `loadFrame` and
`preloadAllFrames`: on success the decoded buffer is stored in
`sequence[i]`, on failure the frame is marked failed and the error
logged.  Either way the decoder ran once. -/
def decodeStep (env : Env) (i : Nat) (s : SeqState) : SeqState :=
  match ofLoadImage env (s.filenames.getD i "") with
  | some pix =>
      { s with sequence := s.sequence.set i pix,
               decodeCalls := s.decodeCalls + 1 }
  | none =>
      ofLogError "loadFrame: Image failed to load"
        { s with loadFailed := s.loadFailed.set i true,
                 decodeCalls := s.decodeCalls + 1 }

/-- `ofxImageSequence<T>::loadFrame(int imageIndex)`, translated line by
line.  The early-return on `lastFrameLoaded == imageIndex` precedes the
bounds check, exactly as in the source. -/
def loadFrame (env : Env) (imageIndex : Int) (s : SeqState) : SeqState :=
  if s.lastFrameLoaded = imageIndex then s
  else if imageIndex < 0 ∨ (s.sequence.length : Int) ≤ imageIndex then
    ofLogError "loadFrame: Calling a frame out of bounds" s
  else
    let i := imageIndex.toNat
    let s1 :=
      if (s.sequence.getD i Pix.empty).isAllocated = false
          ∧ s.loadFailed.getD i false = false then
        decodeStep env i s
      else s
    if s1.loadFailed.getD i false then s1
    else
      { s1 with texture := some (s1.sequence.getD i Pix.empty),
                lastFrameLoaded := imageIndex }

/-- `ofxImageSequence<T>::unloadSequence()` (final state; the worker, if
any, is cancelled and deleted by the destructor call). -/
def unloadSequence (s : SeqState) : SeqState :=
  { s with threadLoader := none
           sequence := []
           filenames := []
           loadFailed := []
           loaded := false
           width := 0
           height := 0
           curLoadFrame := 0
           lastFrameLoaded := -1
           currentFrame := 0 }

/-- `sprintf` with format `%d`: plain decimal rendering of an `int`. -/
def decimalString (i : Int) : String :=
  if i < 0 then "-" ++ toString i.natAbs else toString i.natAbs

/-- `sprintf` with format `%0Nd`: decimal rendering zero-padded on the
left to total width `numDigits` (zeros go between a minus sign and the
digits, as `sprintf` does). -/
def zeroPad (numDigits : Nat) (i : Int) : String :=
  if i < 0 then
    let ds := toString i.natAbs
    "-" ++ String.mk (List.replicate (numDigits - 1 - ds.length) '0') ++ ds
  else
    let ds := toString i.natAbs
    String.mk (List.replicate (numDigits - ds.length) '0') ++ ds

/-- The filename the explicit-range loader generates for index `i`:
`sprintf(imagename, format.str().c_str(), i)` where the format is
`prefix + "%0Nd." + filetype` when `numDigits != 0`, and
`prefix + "%d." + filetype` otherwise. -/
def formatImageName (pre ft : String) (numDigits : Nat) (i : Int) : String :=
  if numDigits ≠ 0 then pre ++ zeroPad numDigits i ++ "." ++ ft
  else pre ++ decimalString i ++ "." ++ ft

/-- One iteration of either load loop: push the filename, then run the
`typeid`-name comparison; on a match push a default-constructed buffer
and a `false` failure flag, otherwise log the unrecognised-type error
and report failure (`return false`). -/
def pushFrameEntry (checked fname : String) (s : SeqState) : SeqState × Bool :=
  let s1 := { s with filenames := s.filenames ++ [fname] }
  if pixelTypeOk checked then
    ({ s1 with sequence := s1.sequence ++ [Pix.empty],
               loadFailed := s1.loadFailed ++ [false] }, true)
  else
    (ofLogError "loadSequence: Unrecognised type" s1, false)

/-- The body of `loadSequence(prefix, filetype, start, end, numDigits)`'s
`for` loop, over the list of indices `start..end`; `checked` is the name
compared by the loop (`typeid(T).name()` there). -/
def rangeLoop (checked pre ft : String) (nd : Nat) :
    List Int → SeqState → SeqState × Bool
  | [], s => (s, true)
  | i :: rest, s =>
    match pushFrameEntry checked (formatImageName pre ft nd i) s with
    | (s1, true) => rangeLoop checked pre ft nd rest s1
    | (s1, false) => (s1, false)

/-- `ofxImageSequence<T>::loadSequence(prefix, filetype, startDigit,
endDigit, numDigits)`. -/
def loadSequenceRange (env : Env) (pre ft : String) (startDigit endDigit : Int)
    (numDigits : Nat) (s0 : SeqState) : SeqState × Bool :=
  let s := unloadSequence s0
  if endDigit - startDigit + 1 ≤ 0 then
    (ofLogError "loadSequence: No image files found." s, false)
  else
    match rangeLoop (pixelTypeName s.pixelT) pre ft numDigits
        ((List.range (endDigit - startDigit + 1).toNat).map
          (fun k : Nat => startDigit + (k : Int))) s with
    | (s1, false) => (s1, false)
    | (s1, true) =>
      let s2 := { s1 with loaded := true, lastFrameLoaded := -1 }
      let s3 := loadFrame env 0 s2
      ({ s3 with width := (s3.sequence.getD 0 Pix.empty).getWidth,
                 height := (s3.sequence.getD 0 Pix.empty).getHeight }, true)

/-- The body of `preloadAllFilenames`'s `for` loop over the listed paths;
`checked` is the name compared by the loop — in the source this is
`typeid(*this).name()`, i.e. `classTypeName`. -/
def filenamesLoop (checked : String) : List String → SeqState → SeqState × Bool
  | [], s => (s, true)
  | f :: rest, s =>
    match pushFrameEntry checked f s with
    | (s1, true) => filenamesLoop checked rest s1
    | (s1, false) => (s1, false)

/-- `ofxImageSequence<T>::preloadAllFilenames()`.  Note the source
compares `typeid(*this).name()` (the class's own name) with the pixel
type names inside the loop. -/
def preloadAllFilenames (env : Env) (s : SeqState) : SeqState × Bool :=
  if env.fileExists s.folderToLoad = false then
    (ofLogError "loadSequence: Could not find folder" s, false)
  else
    let listing := env.listDir s.folderToLoad s.extension
    let numFiles :=
      if 0 < s.maxFrames then min listing.length s.maxFrames
      else listing.length
    if numFiles = 0 then
      (ofLogError "loadSequence: No image files found in folder" s, false)
    else
      filenamesLoop (classTypeName s.pixelT) (listing.take numFiles) s

/-- `ofxImageSequence<T>::completeLoading()`. -/
def completeLoading (env : Env) (s : SeqState) : SeqState :=
  if s.sequence.length = 0 then
    ofLogError "completeLoading: load failed with empty image sequence" s
  else
    let s1 := { s with loaded := true, lastFrameLoaded := -1 }
    let s2 := loadFrame env 0 s1
    { s2 with width := (s2.sequence.getD 0 Pix.empty).getWidth,
              height := (s2.sequence.getD 0 Pix.empty).getHeight }

/-- `ofxImageSequence<T>::loadSequence(string folder)`. -/
def loadSequenceFolder (env : Env) (folder : String) (s0 : SeqState) :
    SeqState × Bool :=
  let s := { unloadSequence s0 with folderToLoad := folder }
  if s.useThread then
    ({ s with threadLoader := some { loading := true, cancelLoading := false } },
      true)
  else
    match preloadAllFilenames env s with
    | (s1, true) => (completeLoading env s1, true)
    | (s1, false) => (s1, false)

/-- Whether the worker's locked read of `cancelLoading` at loop index `i`
observes the flag set: `cancelAt = some k` means the cancelling caller's
write becomes visible from the check at iteration `k` on; `none` means no
cancellation during the run. -/
def cancelObserved : Option Nat → Nat → Bool
  | none, _ => false
  | some k, i => k ≤ i

/-- The `for` loop of `preloadAllFrames`, with `fuel` remaining
iterations and `i` the current index.  Under `useThread` the source first
returns if `threadLoader == NULL`, then returns if the locked read of
`cancelLoading` is true; otherwise it records `curLoadFrame = i` and runs
the decode, marking `loadFailed[i]` on failure, and continues — no break
on decode failure. -/
def preloadGo (env : Env) (cancelAt : Option Nat) :
    Nat → Nat → SeqState → SeqState
  | 0, _, s => s
  | fuel + 1, i, s =>
    if s.useThread = true
        ∧ (s.threadLoader = none ∨ cancelObserved cancelAt i = true) then s
    else
      preloadGo env cancelAt fuel (i + 1)
        (decodeStep env i { s with curLoadFrame := i })

/-- `ofxImageSequence<T>::preloadAllFrames()`; `cancelAt` is the
cancellation-observation schedule (irrelevant when `useThread` is
false). -/
def preloadAllFrames (env : Env) (cancelAt : Option Nat) (s : SeqState) :
    SeqState :=
  if s.sequence.length = 0 then
    ofLogError "loadFrame: Calling preloadAllFrames on unitialized image sequence." s
  else preloadGo env cancelAt s.sequence.length 0 s

/-- `ofxImageSequence<T>::percentLoaded()`. -/
def percentLoaded (s : SeqState) : ℚ :=
  if isLoaded s = true then 1
  else if isLoading s = true ∧ 0 < s.sequence.length then
    (s.curLoadFrame : ℚ) / (s.sequence.length : ℚ)
  else 0

/-- `ofxImageSequence<T>::cancelLoad()`: when threading is on and a
loader exists, `cancel()` it (set the flag, join the worker) and delete
it, leaving `threadLoader == NULL`. -/
def cancelLoad (s : SeqState) : SeqState :=
  if s.useThread = true ∧ s.threadLoader ≠ none then
    { s with threadLoader := none }
  else s

/-- `ofxImageSequence<T>::getFilePath(int index)`.  The bounds check is
`index > 0 && index < filenames.size()`, as in the source. -/
def getFilePath (index : Int) (s : SeqState) : String × SeqState :=
  if 0 < index ∧ index < (s.filenames.length : Int) then
    (s.filenames.getD index.toNat "", s)
  else
    ("", ofLogError "getFilePath: Getting filename outside of range" s)

/-- The C `(int)` cast on a real value: truncation toward zero. -/
def cTruncToInt (q : ℚ) : Int := if q < 0 then ⌈q⌉ else ⌊q⌋

/-- `ofxImageSequence<T>::getFrameIndexAtPercent(float percent)`.
`MIN((int)(percent * sequence.size()), sequence.size() - 1)` is written
with `Int` subtraction; for `sequence.size() = 0` the C++ expression
mixes a `size_t` underflow into the comparison, but every claim about
this function assumes `frameCount >= 1`, where the translation is
exact. -/
def getFrameIndexAtPercent (s : SeqState) (percent : ℚ) : Int :=
  let p := if percent < 0 ∨ 1 < percent then percent - ⌊percent⌋ else percent
  min (cTruncToInt (p * (s.sequence.length : ℚ)))
    ((s.sequence.length : Int) - 1)

/-- `ofxImageSequence<T>::getPercentAtFrameIndex(int index)`
(`ofMap(index, 0, size-1, 0, 1, clamped)`). -/
def getPercentAtFrameIndex (s : SeqState) (index : Int) : ℚ :=
  let n : Int := s.sequence.length
  if n ≤ 1 then 0
  else
    let raw : ℚ := (index : ℚ) / ((n : ℚ) - 1)
    max 0 (min 1 raw)

/-- `ofxImageSequence<T>::setFrame(int index)`.  After the guards the
source performs `index %= getTotalFrames()`; `Int.emod` agrees with C++
`%` for the non-negative operands reachable here (a zero divisor is C++
UB — the invariant claim C8 shows it cannot occur when `loaded`). -/
def setFrame (env : Env) (index : Int) (s : SeqState) : SeqState :=
  if s.loaded = false then
    ofLogError "setFrame: Calling getFrame on unitialized image sequence." s
  else if index < 0 then
    ofLogError "setFrame: Asking for negative index." s
  else
    let i := index % getTotalFrames s
    let s1 := loadFrame env i s
    { s1 with currentFrame := i }

/-- `ofxImageSequence<T>::setFrameAtPercent(float percent)`. -/
def setFrameAtPercent (env : Env) (percent : ℚ) (s : SeqState) : SeqState :=
  setFrame env (getFrameIndexAtPercent s percent) s

/-- `ofxImageSequence<T>::setFrameForTime(float time)`; `ℚ` division by
zero yields 0 where C++ floats give inf/NaN, but every consumer feeds the
result through `setFrame`'s guards, so the claims are unaffected. -/
def setFrameForTime (env : Env) (time : ℚ) (s : SeqState) : SeqState :=
  let totalTime : ℚ := (s.sequence.length : ℚ) / s.frameRate
  let percent := time / totalTime
  setFrameAtPercent env percent s

/-- `ofxImageSequence<T>::setMaxFrames(int newMaxFrames)`
(`maxFrames = MAX(newMaxFrames, 0)`; `Int.toNat` is that clamp). -/
def setMaxFrames (n : Int) (s : SeqState) : SeqState :=
  let s1 := { s with maxFrames := n.toNat }
  if s1.loaded = true then
    ofLogError "setMaxFrames: Max frames must be called before load" s1
  else s1

/-- `ofxImageSequence<T>::setExtension(string ext)`. -/
def setExtension (e : String) (s : SeqState) : SeqState :=
  { s with extension := e }

/-- `ofxImageSequence<T>::enableThreadedLoad(bool enable)`. -/
def enableThreadedLoad (b : Bool) (s : SeqState) : SeqState :=
  let s1 :=
    if s.loaded = true then
      ofLogError "enableThreadedLoad: Need to enable threaded loading before calling load" s
    else s
  { s1 with useThread := b }

/-- `ofxImageSequence<T>::setFrameRate(float rate)`. -/
def setFrameRate (r : ℚ) (s : SeqState) : SeqState :=
  { s with frameRate := r }

/-- The state-mutating operations of the public and internal surface,
for the invariant claim. -/
inductive SeqOp where
  | opLoadRange (pre ft : String) (sd ed : Int) (nd : Nat)
  | opLoadFolder (folder : String)
  | opCompleteLoading
  | opPreloadFilenames
  | opUnload
  | opSetFrame (i : Int)
  | opLoadFrame (i : Int)
  | opPreloadFrames (cancelAt : Option Nat)
  | opCancelLoad
  | opSetMaxFrames (n : Int)
  | opSetExtension (e : String)
  | opEnableThreadedLoad (b : Bool)
  | opSetFrameRate (r : ℚ)
  | opSetFrameAtPercent (p : ℚ)
  | opSetFrameForTime (t : ℚ)

/-- The state transformer of each operation (return values dropped). -/
def step (env : Env) : SeqOp → SeqState → SeqState
  | .opLoadRange pre ft sd ed nd, s => (loadSequenceRange env pre ft sd ed nd s).1
  | .opLoadFolder f, s => (loadSequenceFolder env f s).1
  | .opCompleteLoading, s => completeLoading env s
  | .opPreloadFilenames, s => (preloadAllFilenames env s).1
  | .opUnload, s => unloadSequence s
  | .opSetFrame i, s => setFrame env i s
  | .opLoadFrame i, s => loadFrame env i s
  | .opPreloadFrames c, s => preloadAllFrames env c s
  | .opCancelLoad, s => cancelLoad s
  | .opSetMaxFrames n, s => setMaxFrames n s
  | .opSetExtension e, s => setExtension e s
  | .opEnableThreadedLoad b, s => enableThreadedLoad b s
  | .opSetFrameRate r, s => setFrameRate r s
  | .opSetFrameAtPercent p, s => setFrameAtPercent env p s
  | .opSetFrameForTime t, s => setFrameForTime env t s

/-- The invariant of claim C8: a loaded sequence has at least one entry. -/
def SeqInv (s : SeqState) : Prop := s.loaded = true → 0 < s.sequence.length

/-- The percent-to-index mapping as the specification words it: wrap `p`
into `[0,1)` by subtracting its floor only when `p` is outside `[0,1]`
inclusive, then take `floor(p * frameCount)` clamped to
`frameCount - 1`.  Stated from the spec to be compared with the
source-translated `getFrameIndexAtPercent`. -/
def frameIndexAtPercentSpec (frameCount : Nat) (p : ℚ) : Int :=
  let q := if 0 ≤ p ∧ p ≤ 1 then p else p - ⌊p⌋
  min ⌊q * (frameCount : ℚ)⌋ ((frameCount : Int) - 1)

/-! ### Concrete fixtures used by witnesses and counterexamples -/

/-- An environment where nothing exists and every decode fails. -/
def envNone : Env :=
  { decode := fun _ => none
    fileExists := fun _ => true
    listDir := fun _ _ => [] }

/-- An environment whose every folder exists and lists two image files,
and where every decode succeeds with a 4×3 buffer. -/
def envFrames : Env :=
  { decode := fun _ => some (4, 3)
    fileExists := fun _ => true
    listDir := fun _ _ => ["frames/a.png", "frames/b.png"] }

/-- A freshly constructed `ofxImageSequence<ofPixels>`. -/
def baseState : SeqState := initSequenceState PixelTypeT.ofPixels

/-- A loaded two-frame sequence, no frame decoded yet. -/
def stateTwo : SeqState :=
  { baseState with
      filenames := ["a.png", "b.png"]
      sequence := [Pix.empty, Pix.empty]
      loadFailed := [false, false]
      loaded := true }

/-- A snapshot of a threaded load whose filename resolution yielded ten
frames and whose worker is active, before any frame is decoded. -/
def stateTen : SeqState :=
  { baseState with
      useThread := true
      threadLoader := some { loading := true, cancelLoading := false }
      sequence := List.replicate 10 Pix.empty
      filenames := (List.range 10).map
        (fun i => "frames/f" ++ toString i ++ ".png")
      loadFailed := List.replicate 10 false }

/-- The worker's decode run over `stateTen`, observing the cancellation
flag at iteration 3 (so frames 0,1,2 decode, then the run stops). -/
def runTen : SeqState := preloadAllFrames envFrames (some 3) stateTen

/-- The state after the caller's `cancelLoad()` joins and deletes the
worker of `runTen`. -/
def cancelledTen : SeqState := cancelLoad runTen

/-! ### Helper lemmas -/

theorem pixelTypeName_ok (t : PixelTypeT) :
    pixelTypeOk (pixelTypeName t) = true := by
  cases t <;> decide

theorem classTypeName_not_ok (t : PixelTypeT) :
    pixelTypeOk (classTypeName t) = false := by
  cases t <;> decide

theorem getD_set_self {α : Type} (l : List α) (n : Nat) (h : n < l.length)
    (a d : α) : (l.set n a).getD n d = a := by
  rw [List.getD_eq_getElem _ _ (by simpa using h)]
  simp

theorem getD_replicate {α : Type} (n k : Nat) (h : k < n) (a d : α) :
    (List.replicate n a).getD k d = a := by
  rw [List.getD_eq_getElem _ _ (by simpa using h)]
  simp

/-- Field bookkeeping for `decodeStep`. -/
theorem decodeStep_fields (env : Env) (i : Nat) (s : SeqState) :
    (decodeStep env i s).loaded = s.loaded
    ∧ (decodeStep env i s).sequence.length = s.sequence.length
    ∧ (decodeStep env i s).filenames = s.filenames
    ∧ (decodeStep env i s).texture = s.texture
    ∧ (decodeStep env i s).lastFrameLoaded = s.lastFrameLoaded
    ∧ (decodeStep env i s).useThread = s.useThread
    ∧ (decodeStep env i s).threadLoader = s.threadLoader
    ∧ (decodeStep env i s).decodeCalls = s.decodeCalls + 1
    ∧ (decodeStep env i s).loadFailed.length = s.loadFailed.length
    ∧ (decodeStep env i s).currentFrame = s.currentFrame := by
  unfold decodeStep
  cases ofLoadImage env (s.filenames.getD i "") <;>
    simp [ofLogError]


/-- Field bookkeeping for `loadFrame`: it never changes the loaded flag,
the entry count, the filename list, the threading mode or the worker. -/
theorem loadFrame_fields (env : Env) (i : Int) (s : SeqState) :
    (loadFrame env i s).loaded = s.loaded
    ∧ (loadFrame env i s).sequence.length = s.sequence.length
    ∧ (loadFrame env i s).filenames = s.filenames
    ∧ (loadFrame env i s).useThread = s.useThread
    ∧ (loadFrame env i s).threadLoader = s.threadLoader := by
  unfold loadFrame
  split
  · exact ⟨rfl, rfl, rfl, rfl, rfl⟩
  split
  · simp [ofLogError]
  dsimp only
  have hd := decodeStep_fields env i.toNat s
  split
  · split
    · exact ⟨hd.1, hd.2.1, hd.2.2.1, hd.2.2.2.2.2.1, hd.2.2.2.2.2.2.1⟩
    · exact ⟨hd.1, hd.2.1, hd.2.2.1, hd.2.2.2.2.2.1, hd.2.2.2.2.2.2.1⟩
  · split
    · exact ⟨rfl, rfl, rfl, rfl, rfl⟩
    · exact ⟨rfl, rfl, rfl, rfl, rfl⟩

/-- Field bookkeeping for the `preloadAllFrames` loop. -/
theorem preloadGo_fields (env : Env) (c : Option Nat) :
    ∀ (fuel i : Nat) (s : SeqState),
      (preloadGo env c fuel i s).loaded = s.loaded
      ∧ (preloadGo env c fuel i s).sequence.length = s.sequence.length
      ∧ (preloadGo env c fuel i s).texture = s.texture
      ∧ (preloadGo env c fuel i s).lastFrameLoaded = s.lastFrameLoaded := by
  intro fuel
  induction fuel with
  | zero => intro i s; exact ⟨rfl, rfl, rfl, rfl⟩
  | succ n ih =>
    intro i s
    unfold preloadGo
    split
    · exact ⟨rfl, rfl, rfl, rfl⟩
    · have hd := decodeStep_fields env i { s with curLoadFrame := i }
      have hi := ih (i + 1) (decodeStep env i { s with curLoadFrame := i })
      exact ⟨hi.1.trans hd.1, hi.2.1.trans hd.2.1, hi.2.2.1.trans hd.2.2.2.1,
        hi.2.2.2.trans hd.2.2.2.2.1⟩

/-- With threading off, the `preloadAllFrames` loop runs the decoder on
every one of its `fuel` iterations. -/
theorem preloadGo_nothread (env : Env) (c : Option Nat) :
    ∀ (fuel i : Nat) (s : SeqState), s.useThread = false →
      (preloadGo env c fuel i s).decodeCalls = s.decodeCalls + fuel := by
  intro fuel
  induction fuel with
  | zero => intro i s _; rfl
  | succ n ih =>
    intro i s hs
    unfold preloadGo
    split
    · rename_i hcond
      exact absurd hcond.1 (by simp [hs])
    · have hd := decodeStep_fields env i { s with curLoadFrame := i }
      have hu : (decodeStep env i { s with curLoadFrame := i }).useThread = false :=
        (hd.2.2.2.2.2.1).trans hs
      have hi := ih (i + 1) (decodeStep env i { s with curLoadFrame := i }) hu
      rw [hi, hd.2.2.2.2.2.2.2.1]
      show s.decodeCalls + 1 + n = s.decodeCalls + (n + 1)
      omega

/-- With an accepted pixel-type name, the explicit-range loop appends one
filename, one fresh buffer and one failure flag per index, in order, and
reports success. -/
theorem rangeLoop_ok (checked pre ft : String) (nd : Nat)
    (hok : pixelTypeOk checked = true) :
    ∀ (l : List Int) (s : SeqState),
      rangeLoop checked pre ft nd l s =
        ({ s with
            filenames := s.filenames ++ l.map (formatImageName pre ft nd),
            sequence := s.sequence ++ List.replicate l.length Pix.empty,
            loadFailed := s.loadFailed ++ List.replicate l.length false },
          true) := by
  intro l
  induction l with
  | nil => intro s; simp [rangeLoop]
  | cons i rest ih =>
    intro s
    unfold rangeLoop pushFrameEntry
    rw [hok]
    simp only [reduceIte]
    rw [ih]
    simp [List.append_assoc, List.replicate_succ]

/-- With a rejected name (the `typeid(*this)` comparison of
`preloadAllFilenames`), the folder loop pushes the first filename, logs
the unrecognised-type error and reports failure. -/
theorem filenamesLoop_fail (checked : String)
    (hbad : pixelTypeOk checked = false) (f : String) (rest : List String)
    (s : SeqState) :
    filenamesLoop checked (f :: rest) s =
      (ofLogError "loadSequence: Unrecognised type"
        { s with filenames := s.filenames ++ [f] }, false) := by
  unfold filenamesLoop pushFrameEntry
  rw [hbad]
  simp only [Bool.false_eq_true, reduceIte]

/-- The folder loop never changes the loaded flag and never shrinks the
entry list. -/
theorem filenamesLoop_mono (checked : String) :
    ∀ (l : List String) (s : SeqState),
      (filenamesLoop checked l s).1.loaded = s.loaded
      ∧ s.sequence.length ≤ (filenamesLoop checked l s).1.sequence.length := by
  intro l
  induction l with
  | nil => intro s; exact ⟨rfl, Nat.le_refl _⟩
  | cons f rest ih =>
    intro s
    unfold filenamesLoop pushFrameEntry
    by_cases hok : pixelTypeOk checked = true
    · rw [hok]
      simp only [reduceIte]
      have := ih { s with
        filenames := s.filenames ++ [f]
        sequence := s.sequence ++ [Pix.empty]
        loadFailed := s.loadFailed ++ [false] }
      refine ⟨this.1, le_trans ?_ this.2⟩
      simp
    · rw [Bool.not_eq_true] at hok
      rw [hok]
      simp only [Bool.false_eq_true, reduceIte]
      exact ⟨rfl, Nat.le_refl _⟩

/-- Every execution path of `preloadAllFilenames` returns `false`: the
guards return `false`, and the loop's `typeid(*this).name()` comparison
(`classTypeName`) never matches a pixel-type name, so the first
iteration reports the unrecognised-type error. -/
theorem preloadAllFilenames_false (env : Env) (s : SeqState) :
    (preloadAllFilenames env s).2 = false := by
  unfold preloadAllFilenames
  split
  · rfl
  dsimp only
  cases hl : env.listDir s.folderToLoad s.extension with
  | nil => simp
  | cons f rest =>
    generalize (if 0 < s.maxFrames then min (f :: rest).length s.maxFrames
      else (f :: rest).length) = m
    split
    · rfl
    rename_i hz
    rcases m with _ | m'
    · exact absurd rfl hz
    · rw [List.take_succ_cons,
        filenamesLoop_fail _ (classTypeName_not_ok s.pixelT)]

/-- `preloadAllFilenames` never changes the loaded flag and never
shrinks the entry list. -/
theorem preloadAllFilenames_mono (env : Env) (s : SeqState) :
    (preloadAllFilenames env s).1.loaded = s.loaded
    ∧ s.sequence.length ≤ (preloadAllFilenames env s).1.sequence.length := by
  unfold preloadAllFilenames
  split
  · exact ⟨rfl, Nat.le_refl _⟩
  dsimp only
  generalize (if 0 < s.maxFrames then
      min (env.listDir s.folderToLoad s.extension).length s.maxFrames
    else (env.listDir s.folderToLoad s.extension).length) = m
  split
  · exact ⟨rfl, Nat.le_refl _⟩
  exact filenamesLoop_mono _ _ _

/-- `completeLoading` keeps the loaded-implies-nonempty invariant. -/
theorem completeLoading_inv (env : Env) (s : SeqState) (h : SeqInv s) :
    SeqInv (completeLoading env s) := by
  unfold completeLoading SeqInv
  split
  · intro hld
    exact h hld
  · rename_i hne
    intro _
    have := (loadFrame_fields env 0 { s with loaded := true, lastFrameLoaded := -1 }).2.1
    simp only [this]
    exact Nat.pos_of_ne_zero hne

theorem cTruncToInt_of_nonneg (q : ℚ) (h : 0 ≤ q) : cTruncToInt q = ⌊q⌋ :=
  if_neg (not_lt.mpr h)

/-- The source's percent-to-index mapping coincides with the
specification's description of it, for any state. -/
theorem frameIndexAtPercentSpecEq (s : SeqState) (p : ℚ) :
    getFrameIndexAtPercent s p = frameIndexAtPercentSpec s.sequence.length p := by
  unfold getFrameIndexAtPercent frameIndexAtPercentSpec
  dsimp only
  by_cases hc : p < 0 ∨ 1 < p
  · have hnot : ¬(0 ≤ p ∧ p ≤ 1) := by
      rintro ⟨hp0, hp1⟩
      rcases hc with hc | hc
      · exact absurd hp0 (not_le.mpr hc)
      · exact absurd hp1 (not_le.mpr hc)
    rw [if_pos hc, if_neg hnot,
      cTruncToInt_of_nonneg _
        (mul_nonneg (sub_nonneg.mpr (Int.floor_le p)) (by positivity))]
  · rw [if_neg hc]
    push_neg at hc
    rw [if_pos ⟨hc.1, hc.2⟩,
      cTruncToInt_of_nonneg _ (mul_nonneg hc.1 (by positivity))]

/-- Claim C4: for `frameCount >= 1`, `getFrameIndexAtPercent` wraps its
argument into `[0,1)` by floor-subtraction exactly when it lies outside
`[0,1]` inclusive, then returns `floor(p * frameCount)` clamped to
`frameCount - 1` (the `frameIndexAtPercentSpec` formulation); in
particular it maps `0` to `0` and `1` to `frameCount - 1`. -/
theorem getFrameIndexAtPercent_correct (s : SeqState) (p : ℚ)
    (h : 1 ≤ s.sequence.length) :
    getFrameIndexAtPercent s p = frameIndexAtPercentSpec s.sequence.length p
    ∧ getFrameIndexAtPercent s 0 = 0
    ∧ getFrameIndexAtPercent s 1 = (s.sequence.length : Int) - 1 := by
  have hn : (1 : Int) ≤ (s.sequence.length : Int) := by exact_mod_cast h
  refine ⟨frameIndexAtPercentSpecEq s p, ?_, ?_⟩
  · rw [frameIndexAtPercentSpecEq]
    unfold frameIndexAtPercentSpec
    dsimp only
    rw [if_pos (by norm_num), zero_mul, Int.floor_zero, min_eq_left (by omega)]
  · rw [frameIndexAtPercentSpecEq]
    unfold frameIndexAtPercentSpec
    dsimp only
    rw [if_pos (by norm_num), one_mul, Int.floor_natCast,
      min_eq_right (by omega)]

/-- Witness for C4 on a loaded two-frame sequence. -/
theorem getFrameIndexAtPercent_witness :
    getFrameIndexAtPercent stateTwo 0 = 0
    ∧ getFrameIndexAtPercent stateTwo 1 = 1 := by
  have h := getFrameIndexAtPercent_correct stateTwo (1/2) (by decide)
  exact ⟨h.2.1, h.2.2.trans (by decide)⟩

/-- Claim C7: on a two-frame sequence, `getFilePath 0` hits the
out-of-range branch (its guard is `index > 0`), returning `""` and
logging the range error even though index 0 holds the stored path
`"a.png"`; `getFilePath 1` returns the stored path. -/
theorem getFilePath_zero_bug :
    stateTwo.filenames.length = 2
    ∧ stateTwo.filenames.getD 0 "" = "a.png"
    ∧ (getFilePath 0 stateTwo).1 = ""
    ∧ (getFilePath 0 stateTwo).2.errorLog
        = ["getFilePath: Getting filename outside of range"]
    ∧ (getFilePath 1 stateTwo).1 = "b.png" := by decide

/-- Claim C10: `loadFrame` returns the state unchanged, with no decode
and no error report, whenever the requested index equals
`lastFrameLoaded` — the equality test precedes the bounds check, so
`loadFrame (-1)` is silently accepted while `lastFrameLoaded = -1`; any
other out-of-bounds index only appends the out-of-bounds error and
leaves every other field unchanged. -/
theorem loadFrame_earlyReturn (env : Env) (i : Int) (s : SeqState) :
    (s.lastFrameLoaded = i → loadFrame env i s = s)
    ∧ (s.lastFrameLoaded ≠ i → (i < 0 ∨ (s.sequence.length : Int) ≤ i) →
        loadFrame env i s
          = ofLogError "loadFrame: Calling a frame out of bounds" s)
    ∧ (s.lastFrameLoaded = -1 → loadFrame env (-1) s = s) := by
  refine ⟨fun h => ?_, fun h1 h2 => ?_, fun h => ?_⟩
  · unfold loadFrame; rw [if_pos h]
  · unfold loadFrame; rw [if_neg h1, if_pos h2]
  · unfold loadFrame; rw [if_pos h]

/-- Witness for C10: `loadFrame (-1)` on a fresh loaded sequence is a
silent no-op, and `loadFrame 5` on a two-frame sequence only logs. -/
theorem loadFrame_earlyReturn_witness :
    loadFrame envNone (-1) stateTwo = stateTwo
    ∧ loadFrame envNone 5 stateTwo
        = ofLogError "loadFrame: Calling a frame out of bounds" stateTwo := by
  refine ⟨(loadFrame_earlyReturn envNone (-1) stateTwo).1 (by decide), ?_⟩
  exact (loadFrame_earlyReturn envNone 5 stateTwo).2.1 (by decide) (by decide)

/-- Claim C1: load-by-folder fails even on an existing folder listing
image files — `preloadAllFilenames` compares `typeid(*this).name()`
(never a pixel-type name) inside its loop, so the first iteration logs
the unrecognised-type error and the load returns `false` with
`loaded = false`. -/
theorem folderLoadAlwaysFails :
    envFrames.fileExists "frames" = true
    ∧ envFrames.listDir "frames" "" = ["frames/a.png", "frames/b.png"]
    ∧ (loadSequenceFolder envFrames "frames" baseState).2 = false
    ∧ (loadSequenceFolder envFrames "frames" baseState).1.loaded = false
    ∧ (loadSequenceFolder envFrames "frames" baseState).1.errorLog
        = ["loadSequence: Unrecognised type"] := by decide

/-- Claim C6, counterexample: a threaded run that decoded frames 0–2 of
ten and then observed cancellation leaves, after `cancelLoad`,
`loaded = false` as claimed — but `percentLoaded` returns `0`, not the
claimed `3/10`, because `cancelLoad` deleted the loader and
`percentLoaded` reports progress only while `isLoading()`. -/
theorem cancelThreadedLoad_counterexample :
    runTen.decodeCalls = 3
    ∧ (runTen.sequence.take 3).all Pix.isAllocated = true
    ∧ runTen.sequence.length = 10
    ∧ cancelledTen.loaded = false
    ∧ percentLoaded cancelledTen = 0
    ∧ (0 : ℚ) ≠ 3 / 10 := by
  refine ⟨by decide, by decide, by decide, by decide, by decide, by norm_num⟩

/-- Claim C6, amended: after cancelling a threaded load the sequence has
`loaded = false` and `percentLoaded()` returns `0` (the loader is gone,
so the progress fraction is no longer reported). -/
theorem cancelLoad_percentLoaded (s : SeqState) (h1 : s.loaded = false)
    (h2 : s.useThread = true) (h3 : s.threadLoader ≠ none) :
    (cancelLoad s).loaded = false ∧ percentLoaded (cancelLoad s) = 0 := by
  unfold cancelLoad
  rw [if_pos ⟨h2, h3⟩]
  refine ⟨h1, ?_⟩
  unfold percentLoaded isLoaded isLoading
  simp [h1]

/-- Witness for the amended C6, at the concrete cancelled run. -/
theorem cancelLoad_percentLoaded_witness :
    (cancelLoad runTen).loaded = false
    ∧ percentLoaded (cancelLoad runTen) = 0 :=
  cancelLoad_percentLoaded runTen (by decide) (by decide) (by decide)

/-- Claim C5: for `start <= end`, load-by-explicit-range generates
exactly one filename per integer `i` in `[start, end]`, in increasing
order, formatted `prefix ++ pad(i, digits) ++ "." ++ ext` —
zero-padded to `digits` characters when `digits > 0`, plain decimal when
`digits = 0` — and the load reports success. -/
theorem loadSequenceRange_filenames (env : Env) (pre ft : String)
    (sd ed : Int) (nd : Nat) (s : SeqState) (h : sd ≤ ed) :
    (loadSequenceRange env pre ft sd ed nd s).1.filenames
      = (List.range (ed - sd + 1).toNat).map
          (fun k : Nat =>
            if 0 < nd then pre ++ zeroPad nd (sd + (k : Int)) ++ "." ++ ft
            else pre ++ decimalString (sd + (k : Int)) ++ "." ++ ft)
    ∧ (loadSequenceRange env pre ft sd ed nd s).2 = true := by
  unfold loadSequenceRange
  rw [if_neg (by omega)]
  rw [rangeLoop_ok _ pre ft nd (pixelTypeName_ok _)]
  dsimp only
  constructor
  · rw [(loadFrame_fields env 0 _).2.2.1]
    dsimp only [unloadSequence]
    rw [List.nil_append, List.map_map]
    simp only [Function.comp_def, formatImageName, Nat.pos_iff_ne_zero]
  · rfl

theorem loadFrame_zero_fail (env : Env) (s : SeqState)
    (hlast : s.lastFrameLoaded ≠ 0)
    (hn : 0 < s.sequence.length)
    (ha : (s.sequence.getD 0 Pix.empty).isAllocated = false)
    (hf : s.loadFailed.getD 0 false = false)
    (hflen : 0 < s.loadFailed.length)
    (hdec : env.decode (s.filenames.getD 0 "") = none) :
    loadFrame env 0 s = ofLogError "loadFrame: Image failed to load"
      { s with loadFailed := s.loadFailed.set 0 true,
               decodeCalls := s.decodeCalls + 1 } := by
  unfold loadFrame
  rw [if_neg hlast,
    if_neg (by push_neg; exact ⟨le_refl 0, by exact_mod_cast hn⟩)]
  dsimp only
  simp only [Int.toNat_zero]
  have hco : (s.sequence.getD 0 Pix.empty).isAllocated = false
      ∧ s.loadFailed.getD 0 false = false := ⟨ha, hf⟩
  rw [if_pos hco]
  unfold decodeStep ofLoadImage
  rw [hdec]
  simp only [Option.map_none']
  dsimp only [ofLogError]
  have ht : (s.loadFailed.set 0 true).getD 0 false = true :=
    getD_set_self s.loadFailed 0 hflen true false
  rw [if_pos ht]

/-- Claim C9: load-by-explicit-range with `start <= end` returns `true`
and sets `loaded = true` even when the generated paths do not exist: the
forced decode of frame 0 fails, marking only that frame decode-failed,
and `width`/`height` are recorded as 0. -/
theorem loadSequenceRange_missing (env : Env) (pre ft : String)
    (sd ed : Int) (nd : Nat) (s : SeqState) (h : sd ≤ ed)
    (hdec : env.decode (formatImageName pre ft nd sd) = none) :
    (loadSequenceRange env pre ft sd ed nd s).2 = true
    ∧ (loadSequenceRange env pre ft sd ed nd s).1.loaded = true
    ∧ (loadSequenceRange env pre ft sd ed nd s).1.loadFailed.getD 0 false = true
    ∧ (loadSequenceRange env pre ft sd ed nd s).1.width = 0
    ∧ (loadSequenceRange env pre ft sd ed nd s).1.height = 0 := by
  have hn : 0 < (ed - sd + 1).toNat := by omega
  unfold loadSequenceRange
  rw [if_neg (by omega), rangeLoop_ok _ pre ft nd (pixelTypeName_ok _)]
  dsimp only [unloadSequence]
  rw [loadFrame_zero_fail env _ ?hlast ?hn2 ?ha ?hf ?hflen ?hd]
  case hlast => dsimp only; decide
  case hn2 => dsimp only; simp [hn]
  case ha =>
    dsimp only
    rw [List.nil_append, getD_replicate _ 0 (by simp [hn]) Pix.empty Pix.empty]
    rfl
  case hf =>
    dsimp only
    rw [List.nil_append, getD_replicate _ 0 (by simp [hn]) false false]
  case hflen => dsimp only; simp [hn]
  case hd =>
    dsimp only
    rw [List.nil_append, List.getD_eq_getElem _ _ (by simp [hn])]
    simp
    exact hdec
  dsimp only [ofLogError]
  refine ⟨rfl, rfl, ?_, ?_, ?_⟩
  · rw [List.nil_append, getD_set_self _ 0 (by simp [hn]) true false]
  · dsimp only
    rw [List.nil_append, getD_replicate _ 0 (by simp [hn]) Pix.empty Pix.empty]
    rfl
  · dsimp only
    rw [List.nil_append, getD_replicate _ 0 (by simp [hn]) Pix.empty Pix.empty]
    rfl

theorem loadFrame_last (env : Env) (i : Int) (s : SeqState)
    (h : s.lastFrameLoaded = i) : loadFrame env i s = s := by
  unfold loadFrame
  rw [if_pos h]

theorem loadFrame_skip_failed (env : Env) (i : Int) (s : SeqState)
    (hL : s.lastFrameLoaded ≠ i) (h0 : 0 ≤ i)
    (h1 : i < (s.sequence.length : Int))
    (hfail : s.loadFailed.getD i.toNat false = true) :
    loadFrame env i s = s := by
  unfold loadFrame
  rw [if_neg hL, if_neg (by push_neg; exact ⟨h0, h1⟩)]
  dsimp only
  have hno : ¬((s.sequence.getD i.toNat Pix.empty).isAllocated = false
      ∧ s.loadFailed.getD i.toNat false = false) := by
    rintro ⟨-, hf⟩; rw [hfail] at hf; cases hf
  rw [if_neg hno, if_pos hfail]

theorem loadFrame_skip_alloc (env : Env) (i : Int) (s : SeqState)
    (hL : s.lastFrameLoaded ≠ i) (h0 : 0 ≤ i)
    (h1 : i < (s.sequence.length : Int))
    (halloc : (s.sequence.getD i.toNat Pix.empty).isAllocated = true)
    (hfail : s.loadFailed.getD i.toNat false = false) :
    loadFrame env i s =
      { s with texture := some (s.sequence.getD i.toNat Pix.empty),
               lastFrameLoaded := i } := by
  unfold loadFrame
  rw [if_neg hL, if_neg (by push_neg; exact ⟨h0, h1⟩)]
  dsimp only
  have hno : ¬((s.sequence.getD i.toNat Pix.empty).isAllocated = false
      ∧ s.loadFailed.getD i.toNat false = false) := by
    rintro ⟨ha, -⟩; rw [halloc] at ha; cases ha
  have hnf : ¬(s.loadFailed.getD i.toNat false = true) := by
    rw [hfail]; exact Bool.false_ne_true
  rw [if_neg hno, if_neg hnf]

theorem loadFrame_fresh_success (env : Env) (i : Int) (s : SeqState)
    (hL : s.lastFrameLoaded ≠ i) (h0 : 0 ≤ i)
    (h1 : i < (s.sequence.length : Int))
    (halloc : (s.sequence.getD i.toNat Pix.empty).isAllocated = false)
    (hfail : s.loadFailed.getD i.toNat false = false) (pix : Pix)
    (hdec : ofLoadImage env (s.filenames.getD i.toNat "") = some pix) :
    loadFrame env i s =
      { s with sequence := s.sequence.set i.toNat pix,
               decodeCalls := s.decodeCalls + 1,
               texture := some pix,
               lastFrameLoaded := i } := by
  have hlt : i.toNat < s.sequence.length := by omega
  unfold loadFrame
  rw [if_neg hL, if_neg (by push_neg; exact ⟨h0, h1⟩)]
  dsimp only
  have hco : (s.sequence.getD i.toNat Pix.empty).isAllocated = false
      ∧ s.loadFailed.getD i.toNat false = false := ⟨halloc, hfail⟩
  rw [if_pos hco]
  unfold decodeStep
  rw [hdec]
  dsimp only
  rw [if_neg (by rw [hfail]; exact Bool.false_ne_true)]
  rw [getD_set_self s.sequence i.toNat hlt pix Pix.empty]

theorem loadFrame_fresh_fail (env : Env) (i : Int) (s : SeqState)
    (hL : s.lastFrameLoaded ≠ i) (h0 : 0 ≤ i)
    (h1 : i < (s.sequence.length : Int))
    (halloc : (s.sequence.getD i.toNat Pix.empty).isAllocated = false)
    (hfail : s.loadFailed.getD i.toNat false = false)
    (hflen : i.toNat < s.loadFailed.length)
    (hdec : ofLoadImage env (s.filenames.getD i.toNat "") = none) :
    loadFrame env i s = ofLogError "loadFrame: Image failed to load"
      { s with loadFailed := s.loadFailed.set i.toNat true,
               decodeCalls := s.decodeCalls + 1 } := by
  unfold loadFrame
  rw [if_neg hL, if_neg (by push_neg; exact ⟨h0, h1⟩)]
  dsimp only
  have hco : (s.sequence.getD i.toNat Pix.empty).isAllocated = false
      ∧ s.loadFailed.getD i.toNat false = false := ⟨halloc, hfail⟩
  rw [if_pos hco]
  unfold decodeStep
  rw [hdec]
  dsimp only [ofLogError]
  rw [if_pos (getD_set_self s.loadFailed i.toNat hflen true false)]

/-- Claim C2: for a valid index, calling `loadFrame` twice performs the
decoder calls of a single call (the second call never decodes); a single
call performs at most one decode, none when the buffer is already set or
the frame is marked failed, and exactly one on a fresh frame. -/
theorem loadFrame_decode_once (env : Env) (i : Int) (s : SeqState)
    (h0 : 0 ≤ i) (h1 : i < (s.sequence.length : Int))
    (hlen : s.loadFailed.length = s.sequence.length) :
    (loadFrame env i (loadFrame env i s)).decodeCalls
        = (loadFrame env i s).decodeCalls
    ∧ (loadFrame env i s).decodeCalls ≤ s.decodeCalls + 1
    ∧ ((s.sequence.getD i.toNat Pix.empty).isAllocated = true
          ∨ s.loadFailed.getD i.toNat false = true →
        (loadFrame env i s).decodeCalls = s.decodeCalls)
    ∧ (s.lastFrameLoaded ≠ i →
        (s.sequence.getD i.toNat Pix.empty).isAllocated = false →
        s.loadFailed.getD i.toNat false = false →
        (loadFrame env i s).decodeCalls = s.decodeCalls + 1) := by
  by_cases hL : s.lastFrameLoaded = i
  · rw [loadFrame_last env i s hL, loadFrame_last env i s hL]
    exact ⟨rfl, Nat.le_succ _, fun _ => rfl, fun hne => absurd hL hne⟩
  · by_cases hfail : s.loadFailed.getD i.toNat false = true
    · rw [loadFrame_skip_failed env i s hL h0 h1 hfail,
        loadFrame_skip_failed env i s hL h0 h1 hfail]
      refine ⟨rfl, Nat.le_succ _, fun _ => rfl, fun _ _ hf => ?_⟩
      rw [hf] at hfail; cases hfail
    · rw [Bool.not_eq_true] at hfail
      by_cases halloc : (s.sequence.getD i.toNat Pix.empty).isAllocated = true
      · rw [loadFrame_skip_alloc env i s hL h0 h1 halloc hfail,
          loadFrame_last env i _ rfl]
        refine ⟨rfl, Nat.le_succ _, fun _ => rfl, fun _ ha _ => ?_⟩
        rw [ha] at halloc; cases halloc
      · rw [Bool.not_eq_true] at halloc
        cases hdec : ofLoadImage env (s.filenames.getD i.toNat "") with
        | some pix =>
          rw [loadFrame_fresh_success env i s hL h0 h1 halloc hfail pix hdec,
            loadFrame_last env i _ rfl]
          refine ⟨rfl, le_refl _, fun hor => ?_, fun _ _ _ => rfl⟩
          rcases hor with ha | hf
          · rw [ha] at halloc; cases halloc
          · rw [hf] at hfail; cases hfail
        | none =>
          have hflen : i.toNat < s.loadFailed.length := by omega
          rw [loadFrame_fresh_fail env i s hL h0 h1 halloc hfail hflen hdec]
          have hr := loadFrame_skip_failed env i
            (ofLogError "loadFrame: Image failed to load"
              { s with loadFailed := s.loadFailed.set i.toNat true,
                       decodeCalls := s.decodeCalls + 1 })
            (by dsimp only [ofLogError]; exact hL)
            h0
            (by dsimp only [ofLogError]; exact h1)
            (by dsimp only [ofLogError]
                exact getD_set_self s.loadFailed i.toNat hflen true false)
          rw [hr]
          refine ⟨rfl, le_refl _, fun hor => ?_, fun _ _ _ => rfl⟩
          rcases hor with ha | hf
          · rw [ha] at halloc; cases halloc
          · rw [hf] at hfail; cases hfail

/-- Claim C3: a failed decode in `loadFrame` marks the frame
decode-failed and leaves the displayed texture and `lastFrameLoaded`
unchanged; `preloadAllFrames` (threading off) still attempts every frame
— one decoder call per entry — and never touches the texture. -/
theorem decodeFailure_effects (env : Env) (cancelAt : Option Nat) (i : Int)
    (s : SeqState) :
    (s.lastFrameLoaded ≠ i → 0 ≤ i → i < (s.sequence.length : Int) →
      (s.sequence.getD i.toNat Pix.empty).isAllocated = false →
      s.loadFailed.getD i.toNat false = false →
      i.toNat < s.loadFailed.length →
      env.decode (s.filenames.getD i.toNat "") = none →
      (loadFrame env i s).loadFailed.getD i.toNat false = true
      ∧ (loadFrame env i s).texture = s.texture
      ∧ (loadFrame env i s).lastFrameLoaded = s.lastFrameLoaded)
    ∧ (s.useThread = false → 0 < s.sequence.length →
      (preloadAllFrames env cancelAt s).decodeCalls
          = s.decodeCalls + s.sequence.length
      ∧ (preloadAllFrames env cancelAt s).texture = s.texture
      ∧ (preloadAllFrames env cancelAt s).lastFrameLoaded
          = s.lastFrameLoaded) := by
  constructor
  · intro hL h0 h1 halloc hfail hflen hdec
    have hdec' : ofLoadImage env (s.filenames.getD i.toNat "") = none := by
      unfold ofLoadImage; rw [hdec]; rfl
    rw [loadFrame_fresh_fail env i s hL h0 h1 halloc hfail hflen hdec']
    dsimp only [ofLogError]
    exact ⟨getD_set_self s.loadFailed i.toNat hflen true false, rfl, rfl⟩
  · intro hu hpos
    unfold preloadAllFrames
    rw [if_neg (by omega)]
    exact ⟨preloadGo_nothread env cancelAt _ 0 s hu,
      (preloadGo_fields env cancelAt _ 0 s).2.2.1,
      (preloadGo_fields env cancelAt _ 0 s).2.2.2⟩

theorem loadFrame_inv (env : Env) (i : Int) (s : SeqState) (h : SeqInv s) :
    SeqInv (loadFrame env i s) := by
  intro hld
  have hf := loadFrame_fields env i s
  rw [hf.2.1]
  rw [hf.1] at hld
  exact h hld

theorem setFrame_inv (env : Env) (i : Int) (s : SeqState) (h : SeqInv s) :
    SeqInv (setFrame env i s) := by
  unfold setFrame
  split
  · exact h
  split
  · exact h
  · dsimp only
    intro hld
    have hf := loadFrame_fields env (i % getTotalFrames s) s
    change (loadFrame env (i % getTotalFrames s) s).loaded = true at hld
    change 0 < (loadFrame env (i % getTotalFrames s) s).sequence.length
    rw [hf.2.1]
    rw [hf.1] at hld
    exact h hld

theorem loadSequenceRange_inv (env : Env) (pre ft : String) (sd ed : Int)
    (nd : Nat) (s : SeqState) : SeqInv (loadSequenceRange env pre ft sd ed nd s).1 := by
  unfold loadSequenceRange
  split
  · intro hld
    simp [ofLogError, unloadSequence] at hld
  · rename_i hguard
    dsimp only
    rw [rangeLoop_ok _ pre ft nd (pixelTypeName_ok _)]
    dsimp only
    intro _
    rw [(loadFrame_fields env 0 _).2.1]
    dsimp only [unloadSequence]
    simp only [List.nil_append, List.length_replicate, List.length_map,
      List.length_range]
    omega

theorem loadSequenceFolder_inv (env : Env) (f : String) (s : SeqState) :
    SeqInv (loadSequenceFolder env f s).1 := by
  unfold loadSequenceFolder
  dsimp only
  split
  · intro hld
    simp [unloadSequence] at hld
  · rcases hp : preloadAllFilenames env
        { unloadSequence s with folderToLoad := f } with ⟨s1, b⟩
    have hfalse := preloadAllFilenames_false env
      { unloadSequence s with folderToLoad := f }
    rw [hp] at hfalse
    cases b with
    | true => cases hfalse
    | false =>
      have hm := preloadAllFilenames_mono env
        { unloadSequence s with folderToLoad := f }
      rw [hp] at hm
      dsimp only
      intro hld
      rw [hm.1] at hld
      simp [unloadSequence] at hld

/-- Claim C8: every operation preserves the invariant that a loaded
sequence is non-empty, and under that invariant the modulo divisor
`getTotalFrames` in `setFrame` — reachable only when `loaded` — is
positive, so `index %= getTotalFrames()` never divides by zero. -/
theorem seqInv_step (env : Env) (op : SeqOp) (s : SeqState) (h : SeqInv s) :
    SeqInv (step env op s) ∧ (s.loaded = true → 0 < getTotalFrames s) := by
  refine ⟨?_, fun hld => by unfold getTotalFrames; exact_mod_cast h hld⟩
  cases op with
  | opLoadRange pre ft sd ed nd => exact loadSequenceRange_inv env pre ft sd ed nd s
  | opLoadFolder f => exact loadSequenceFolder_inv env f s
  | opCompleteLoading => exact completeLoading_inv env s h
  | opPreloadFilenames =>
    show SeqInv (preloadAllFilenames env s).1
    intro hld
    have hm := preloadAllFilenames_mono env s
    rw [hm.1] at hld
    exact lt_of_lt_of_le (h hld) hm.2
  | opUnload =>
    show SeqInv (unloadSequence s)
    intro hld
    simp [unloadSequence] at hld
  | opSetFrame i => exact setFrame_inv env i s h
  | opLoadFrame i => exact loadFrame_inv env i s h
  | opPreloadFrames c =>
    show SeqInv (preloadAllFrames env c s)
    unfold preloadAllFrames
    split
    · exact h
    · intro hld
      have hf := preloadGo_fields env c s.sequence.length 0 s
      change (preloadGo env c s.sequence.length 0 s).loaded = true at hld
      change 0 < (preloadGo env c s.sequence.length 0 s).sequence.length
      rw [hf.2.1]
      rw [hf.1] at hld
      exact h hld
  | opCancelLoad =>
    show SeqInv (cancelLoad s)
    unfold cancelLoad
    split
    · exact h
    · exact h
  | opSetMaxFrames n =>
    show SeqInv (setMaxFrames n s)
    unfold setMaxFrames
    dsimp only
    split
    · exact h
    · exact h
  | opSetExtension e => exact h
  | opEnableThreadedLoad b =>
    show SeqInv (enableThreadedLoad b s)
    unfold enableThreadedLoad
    dsimp only
    split
    · exact h
    · exact h
  | opSetFrameRate r => exact h
  | opSetFrameAtPercent p => exact setFrame_inv env _ s h
  | opSetFrameForTime t => exact setFrame_inv env _ s h

/-- Witness for C8 at a concrete operation and state. -/
theorem seqInv_step_witness :
    SeqInv (step envNone SeqOp.opUnload stateTwo)
    ∧ (stateTwo.loaded = true → 0 < getTotalFrames stateTwo) :=
  seqInv_step envNone SeqOp.opUnload stateTwo (by intro _; decide)

/-- Witness for C5: the spec's two concrete examples. -/
theorem loadSequenceRange_filenames_witness :
    (loadSequenceRange envNone "img" "png" 8 10 0 baseState).1.filenames
      = ["img8.png", "img9.png", "img10.png"]
    ∧ (loadSequenceRange envNone "img" "png" 8 10 3 baseState).1.filenames
      = ["img008.png", "img009.png", "img010.png"] :=
  ⟨((loadSequenceRange_filenames envNone "img" "png" 8 10 0 baseState
      (by decide)).1).trans (by decide),
   ((loadSequenceRange_filenames envNone "img" "png" 8 10 3 baseState
      (by decide)).1).trans (by decide)⟩

/-- Witness for C9: a range load against a decoder that fails on every
path still succeeds and records zero dimensions. -/
theorem loadSequenceRange_missing_witness :
    (loadSequenceRange envNone "img" "png" 8 10 0 baseState).2 = true
    ∧ (loadSequenceRange envNone "img" "png" 8 10 0 baseState).1.loaded = true
    ∧ (loadSequenceRange envNone "img" "png" 8 10 0 baseState).1.loadFailed.getD 0 false
        = true
    ∧ (loadSequenceRange envNone "img" "png" 8 10 0 baseState).1.width = 0 := by
  have h := loadSequenceRange_missing envNone "img" "png" 8 10 0 baseState
    (by decide) (by rfl)
  exact ⟨h.1, h.2.1, h.2.2.1, h.2.2.2.1⟩

/-- Witness for C2 on a fresh two-frame sequence with a failing decoder. -/
theorem loadFrame_decode_once_witness :
    (loadFrame envNone 0 (loadFrame envNone 0 stateTwo)).decodeCalls
      = (loadFrame envNone 0 stateTwo).decodeCalls
    ∧ (loadFrame envNone 0 stateTwo).decodeCalls ≤ stateTwo.decodeCalls + 1 := by
  have h := loadFrame_decode_once envNone 0 stateTwo (by decide) (by decide)
    (by decide)
  exact ⟨h.1, h.2.1⟩

/-- Witness for C3 on a fresh two-frame sequence with a failing decoder. -/
theorem decodeFailure_effects_witness :
    ((loadFrame envNone 0 stateTwo).loadFailed.getD 0 false = true
      ∧ (loadFrame envNone 0 stateTwo).texture = stateTwo.texture)
    ∧ (preloadAllFrames envNone none stateTwo).decodeCalls
        = stateTwo.decodeCalls + 2 := by
  have h := decodeFailure_effects envNone none 0 stateTwo
  have h1 := h.1 (by decide) (by decide) (by decide) (by decide) (by decide)
    (by decide) (by rfl)
  have h2 := h.2 (by decide) (by decide)
  exact ⟨⟨h1.1, h1.2.1⟩, h2.1⟩
